import Mathlib

/-!
Verification development for pyflyby's command-line driver
(`src/lib/python/pyflyby/_cmdline.py`).

The Python module is embedded shallowly: the `Modifier` content cache becomes a
structure whose `cached_attribute` slots are explicit `Option` fields, side
effects (filesystem, stdout/stderr, the logger, subprocess invocations, user
input) are threaded through an explicit `World` state, Python exceptions become
an explicit result type (`Except` / `ActResult`), and `SystemExit` /
`AbortActions` become distinguished constructors.  Collaborators that live in
modules outside this repository snapshot (`pyflyby._file`, `pyflyby._util`) are
modelled from the specification and marked as such in their doc comments.
-/

set_option maxHeartbeats 1000000

namespace Pyflyby

/-- A source being processed: a real file path, or the standard-input
sentinel (`Filename.STDIN` in the Python code). -/
inductive PyFilename where
  | file (path : String)
  | stdin
deriving DecidableEq, Repr

/-- Modelled from the spec: the textual form `str(filename)` provided by
`pyflyby._file.Filename` (not under src/).  A real path renders as itself; the
standard-input sentinel renders as its conventional device name. -/
def strOfFilename : PyFilename → String
  | .file p => p
  | .stdin => "/dev/stdin"

/-- Does `leadsWith pat s` hold: is `pat` an initial segment of `s`?
(Building block for Python's substring test `pat in s`.) -/
def leadsWith : List Char → List Char → Bool
  | [], _ => true
  | _ :: _, [] => false
  | a :: as, b :: bs => a == b && leadsWith as bs

/-- Does `pat` occur as a contiguous segment of `s`?  Models Python's
substring membership test `pat in s` on the underlying characters. -/
def listHas (pat : List Char) : List Char → Bool
  | [] => pat.isEmpty
  | c :: rest => leadsWith pat (c :: rest) || listHas pat rest

/-- Python's `pat in s` substring test on strings. -/
def strContains (s pat : String) : Bool :=
  listHas pat.data s.data

/-- Number of positions in `s` at which `pat` occurs. -/
def countOccurAux (pat : List Char) : List Char → Nat
  | [] => 0
  | c :: t => (if leadsWith pat (c :: t) then 1 else 0) + countOccurAux pat t

/-- Number of positions in `s` at which `pat` occurs (counting the whole
string: a count of 1 means the pattern appears exactly once). -/
def countOccur (s pat : String) : Nat :=
  countOccurAux pat.data s.data

/-- ASCII whitespace, as stripped by Python's `str.strip()`. -/
def pyIsSpace (c : Char) : Bool :=
  c == ' ' || c == '\t' || c == '\n' || c == '\r' || c == '\x0b' || c == '\x0c'

/-- Python's `str.strip()` (ASCII whitespace). -/
def pyStrip (s : String) : String :=
  ⟨((s.data.dropWhile pyIsSpace).reverse.dropWhile pyIsSpace).reverse⟩

/-- ASCII lowercasing of one character (Python's `str.lower()` on the ASCII
range used by the driver). -/
def pyLowerChar (c : Char) : Char :=
  if 65 ≤ c.toNat ∧ c.toNat ≤ 90 then Char.ofNat (c.toNat + 32) else c

/-- Python's `str.lower()` (ASCII). -/
def pyLower (s : String) : String :=
  ⟨s.data.map pyLowerChar⟩

/-- Fuel-indexed worker for `pyFormat`: copies characters, substituting
`fname` for each `{filename}` replacement field. -/
def fmtAux (fname : List Char) : Nat → List Char → List Char
  | _, [] => []
  | 0, l => l
  | fuel + 1, c :: t =>
    if c = '{' then
      let field := t.takeWhile (fun x => x != '}')
      let rest := (t.dropWhile (fun x => x != '}')).drop 1
      (if field = "filename".data then fname else '{' :: (field ++ ['}'])) ++
        fmtAux fname fuel rest
    else c :: fmtAux fname fuel t

/-- Models `prompt.format(filename=...)`: every `{filename}` field is replaced
by the file's name (the only field the driver ever interpolates). -/
def pyFormat (fname : String) (s : String) : String :=
  ⟨fmtAux fname.data s.data.length s.data⟩

/-- Embeds `pyflyby._file.FileText` as used by `_cmdline.py`: in-memory text
(`joined`) tagged with its originating source. -/
structure FileText where
  joined : String
  filename : Option PyFilename
deriving DecidableEq, Repr

/-- A Python exception value: its type name and its message (`str(e)`). -/
structure PyExc where
  ty : String
  msg : String
deriving DecidableEq, Repr

/-- The transform function injected into the driver (`modify_function`); it may
raise, which surfaces as `Except.error`. -/
abbrev Transform := FileText → Except PyExc String

/-- Association-list lookup in the modelled filesystem. -/
def fsLookup (fs : List (String × String)) (p : String) : Option String :=
  match fs.find? (fun kv => kv.1 == p) with
  | some kv => some kv.2
  | none => none

/-- Remove every entry for path `p` (used to model file deletion). -/
def fsErase (fs : List (String × String)) (p : String) : List (String × String) :=
  fs.filter (fun kv => kv.1 != p)

/-- Overwrite path `p` with content `s`. -/
def fsWrite (fs : List (String × String)) (p : String) (s : String) :
    List (String × String) :=
  (p, s) :: fsErase fs p

/-- The ambient process state threaded through the embedding: the filesystem,
the standard streams, the pending interactive input lines (an empty list models
end of the input stream), an injected interrupt signal, the logger sink, the
oracle exit status returned by `subprocess.call`, the oracle for atomic-write
success, the global `DEBUG` flag, and instrumentation counters for source reads
and transform applications. -/
structure World where
  fs : List (String × String)
  stdinText : Option String
  readCount : Nat
  transformCount : Nat
  tmpCounter : Nat
  stdoutText : String
  stderrText : String
  queryLines : List String
  interruptPending : Bool
  extCalls : List String
  extStatus : Int
  writeOk : Bool
  logLines : List String
  debug : Bool
deriving DecidableEq, Repr

/-- Modelled from the spec: `pyflyby._file.read_file` (not under src/):
"`GetInputContent() → Content`, fails with ReadError if source unreadable."
Reading bumps the instrumentation counter `readCount`. -/
def read_file (w : World) (f : PyFilename) : Except PyExc FileText × World :=
  let w1 := {w with readCount := w.readCount + 1}
  match f with
  | .file p =>
    match fsLookup w.fs p with
    | some s => (.ok ⟨s, some f⟩, w1)
    | none => (.error ⟨"IOError", "cannot read " ++ p⟩, w1)
  | .stdin =>
    match w.stdinText with
    | some s => (.ok ⟨s, some f⟩, w1)
    | none => (.error ⟨"IOError", "cannot read /dev/stdin"⟩, w1)

/-- Embeds the `Modifier` class: the per-file content cache.  Each
`cached_attribute` of the Python class becomes an explicit `Option` slot
(`none` = not yet computed), per the spec's state-machine reading of
`pyflyby._util.cached_attribute` (not under src/): computed on first access,
memoized once. -/
structure Modifier where
  modifier : Transform
  filename : PyFilename
  input_content_cache : Option FileText
  output_content_cache : Option FileText
  input_content_filename_cache : Option PyFilename
  output_content_filename_cache : Option PyFilename
  tmpfiles : List String

/-- Embeds `Modifier.__init__`. -/
def Modifier.init (modifier : Transform) (filename : PyFilename) : Modifier :=
  { modifier := modifier
    filename := filename
    input_content_cache := none
    output_content_cache := none
    input_content_filename_cache := none
    output_content_filename_cache := none
    tmpfiles := [] }

/-- Embeds the cached attribute `Modifier.input_content`:
`read_file(self.filename)`, memoized on first successful access. -/
def Modifier.input_content (m : Modifier) (w : World) :
    Except PyExc FileText × Modifier × World :=
  match m.input_content_cache with
  | some v => (.ok v, m, w)
  | none =>
    match read_file w m.filename with
    | (.error e, w1) => (.error e, m, w1)
    | (.ok v, w1) => (.ok v, {m with input_content_cache := some v}, w1)

/-- Embeds the cached attribute `Modifier.output_content`:
`FileText(self.modifier(self.input_content), filename=self.filename)`,
memoized on first successful access.  Applying the transform bumps the
instrumentation counter `transformCount`. -/
def Modifier.output_content (m : Modifier) (w : World) :
    Except PyExc FileText × Modifier × World :=
  match m.output_content_cache with
  | some v => (.ok v, m, w)
  | none =>
    match m.input_content w with
    | (.error e, m1, w1) => (.error e, m1, w1)
    | (.ok ic, m1, w1) =>
      let w2 := {w1 with transformCount := w1.transformCount + 1}
      match m1.modifier ic with
      | .error e => (.error e, m1, w2)
      | .ok s => (.ok ⟨s, some m1.filename⟩,
                  {m1 with output_content_cache := some ⟨s, some m1.filename⟩}, w2)

/-- Embeds `Modifier._tempfile`: `NamedTemporaryFile()` creates a fresh file on
disk and registers it in `self._tmpfiles`. -/
def Modifier._tempfile (m : Modifier) (w : World) : String × Modifier × World :=
  let name := "/tmp/tmp" ++ toString w.tmpCounter
  (name, {m with tmpfiles := m.tmpfiles ++ [name]},
   {w with tmpCounter := w.tmpCounter + 1, fs := fsWrite w.fs name ""})

/-- Embeds the cached attribute `Modifier.output_content_filename`: lazily
writes `output_content` to a fresh temp file and returns its path. -/
def Modifier.output_content_filename (m : Modifier) (w : World) :
    Except PyExc PyFilename × Modifier × World :=
  match m.output_content_filename_cache with
  | some p => (.ok p, m, w)
  | none =>
    match m.output_content w with
    | (.error e, m1, w1) => (.error e, m1, w1)
    | (.ok oc, m1, w1) =>
      match m1._tempfile w1 with
      | (name, m2, w2) =>
        (.ok (.file name), {m2 with output_content_filename_cache := some (.file name)},
         {w2 with fs := fsWrite w2.fs name oc.joined})

/-- Embeds the cached attribute `Modifier.input_content_filename`: if the
source is a real file path it is returned directly (the
`isinstance(self.filename, Filename)` branch, per the spec: "If source is a
real file path, returns it directly"); if the source was stdin, the input
content is lazily written to a fresh temp file. -/
def Modifier.input_content_filename (m : Modifier) (w : World) :
    Except PyExc PyFilename × Modifier × World :=
  match m.input_content_filename_cache with
  | some p => (.ok p, m, w)
  | none =>
    match m.filename with
    | .file p =>
      (.ok (.file p), {m with input_content_filename_cache := some (.file p)}, w)
    | .stdin =>
      match m.input_content w with
      | (.error e, m1, w1) => (.error e, m1, w1)
      | (.ok ic, m1, w1) =>
        match m1._tempfile w1 with
        | (name, m2, w2) =>
          (.ok (.file name), {m2 with input_content_filename_cache := some (.file name)},
           {w2 with fs := fsWrite w2.fs name ic.joined})

/-- Embeds `Modifier.__del__`, which closes every `NamedTemporaryFile` this
instance created; closing a `NamedTemporaryFile` (default `delete=True`)
removes the file from disk.  Invoked when the instance's scope ends. -/
def Modifier.close (m : Modifier) (w : World) : World :=
  m.tmpfiles.foldl (fun w p => {w with fs := fsErase w.fs p}) w

/-- The outcome of running one action on the current file's cache:
normal return (`Continue`), a raised `AbortActions`, a raised ordinary
`Exception`, or a raised `SystemExit` (which is not an `Exception` subclass in
Python and therefore escapes the driver's per-file handler).  Every outcome
carries the cache and world at the moment control left the action. -/
inductive ActResult where
  | ok (m : Modifier) (w : World)
  | abort (m : Modifier) (w : World)
  | exc (m : Modifier) (w : World) (e : PyExc)
  | exit (m : Modifier) (w : World) (code : Nat)

/-- An action function, as passed in the `actions` sequence. -/
abbrev PyAction := Modifier → World → ActResult

def ActResult.isOk : ActResult → Bool
  | .ok _ _ => true
  | _ => false

def ActResult.isAbort : ActResult → Bool
  | .abort _ _ => true
  | _ => false

def ActResult.isExc : ActResult → Bool
  | .exc _ _ _ => true
  | _ => false

def ActResult.mod : ActResult → Modifier
  | .ok m _ => m
  | .abort m _ => m
  | .exc m _ _ => m
  | .exit m _ _ => m

def ActResult.world : ActResult → World
  | .ok _ w => w
  | .abort _ w => w
  | .exc _ w _ => w
  | .exit _ w _ => w

/-- Embeds `action_print`: writes `output_content` to standard output. -/
def action_print : PyAction := fun m w =>
  match m.output_content w with
  | (.error e, m1, w1) => .exc m1 w1 e
  | (.ok oc, m1, w1) => .ok m1 {w1 with stdoutText := w1.stdoutText ++ oc.joined}

/-- Embeds `action_ifchanged`: if `output_content.joined` equals
`input_content.joined`, log "unmodified" and raise `AbortActions`. -/
def action_ifchanged : PyAction := fun m w =>
  match m.output_content w with
  | (.error e, m1, w1) => .exc m1 w1 e
  | (.ok oc, m1, w1) =>
    match m1.input_content w1 with
    | (.error e, m2, w2) => .exc m2 w2 e
    | (.ok ic, m2, w2) =>
      if oc.joined = ic.joined then
        .abort m2 {w2 with logLines :=
          w2.logLines ++ ["unmodified: " ++ strOfFilename m2.filename]}
      else .ok m2 w2

/-- Modelled from the spec: `pyflyby._file.atomic_write_file` (not under src/):
"WriteAtomic(path, content) — guarantees no partial/corrupted file is ever
observable"; the write either fully succeeds or leaves the original file
untouched.  Failure is injected through the world's `writeOk` oracle. -/
def atomic_write_file (w : World) (f : PyFilename) (content : FileText) :
    Except PyExc Unit × World :=
  match f with
  | .stdin => (.error ⟨"IOError", "cannot write to stdin"⟩, w)
  | .file p =>
    if w.writeOk then (.ok (), {w with fs := fsWrite w.fs p content.joined})
    else (.error ⟨"IOError", "write failed"⟩, w)

/-- Embeds `action_replace`: raises on the stdin sentinel, otherwise logs
"*** modified ***" and atomically overwrites the source file with
`output_content`. -/
def action_replace : PyAction := fun m w =>
  if m.filename = PyFilename.stdin then
    .exc m w ⟨"Exception", "Can\x27t replace stdio in-place"⟩
  else
    let w1 := {w with logLines :=
      w.logLines ++ [strOfFilename m.filename ++ ": *** modified ***"]}
    match m.output_content w1 with
    | (.error e, m1, w2) => .exc m1 w2 e
    | (.ok oc, m1, w2) =>
      match atomic_write_file w2 m.filename oc with
      | (.ok _, w3) => .ok m1 w3
      | (.error e, w3) => .exc m1 w3 e

/-- Embeds the closure returned by `action_external_command(command)`: invokes
`command input_content_filename output_content_filename` via
`subprocess.call`, logs the command and its exit status, and returns normally
whatever that status was.  The status the subprocess returns is the world's
`extStatus` oracle.  (The process-global `PATH` extension from `sys.argv[0]`
is not modelled; it does not affect the action's result.) -/
def action_external_command (command : String) : PyAction := fun m w =>
  match m.input_content_filename w with
  | (.error e, m1, w1) => .exc m1 w1 e
  | (.ok ifn, m1, w1) =>
    match m1.output_content_filename w1 with
    | (.error e, m2, w2) => .exc m2 w2 e
    | (.ok ofn, m2, w2) =>
      let fullcmd := command ++ " " ++ strOfFilename ifn ++ " " ++ strOfFilename ofn
      .ok m2 {w2 with
        extCalls := w2.extCalls ++ [fullcmd],
        logLines := w2.logLines ++
          ["Executing external command: " ++ fullcmd,
           "External command returned " ++ toString w2.extStatus]}

/-- Does the stripped, lowercased reply start with the letter y?
(`raw_input().strip().lower().startswith('y')`). -/
def startsWithY (s : String) : Bool :=
  match s.data with
  | [] => false
  | c :: _ => c == 'y'

/-- Embeds the closure returned by `action_query(prompt)` (Python default
prompt "Proceed?"): prints the interpolated prompt, reads a line; an
affirmative reply returns normally, any other line prints "Aborted" and raises
`AbortActions`.  `raw_input` raises `EOFError` at end of the input stream
(modelled by an empty `queryLines`), which is not caught here; a
`KeyboardInterrupt` (modelled by `interruptPending`) is caught and converted
into `SystemExit(1)`. -/
def action_query (prompt : String) : PyAction := fun m w =>
  let p := pyFormat (strOfFilename m.filename) prompt
  let w1 := {w with stdoutText := w.stdoutText ++ "\n" ++ p ++ " [y/N] "}
  if w1.interruptPending then
    .exit m {w1 with stderrText := w1.stderrText ++ "KeyboardInterrupt\n"} 1
  else
    match w1.queryLines with
    | [] => .exc m w1 ⟨"EOFError", "EOF when reading a line"⟩
    | line :: rest =>
      let w2 := {w1 with queryLines := rest}
      if startsWithY (pyLower (pyStrip line)) then .ok m w2
      else .abort m {w2 with stdoutText := w2.stdoutText ++ "Aborted\n"}

/-- `action_diff` from `parse_args`: `action_external_command('pyflyby-diff')`. -/
def action_diff : PyAction := action_external_command "pyflyby-diff"

/-- The `--interactive` action chain from `parse_args`. -/
def actions_interactive : List PyAction :=
  [action_ifchanged, action_diff, action_query "Replace {filename}?", action_replace]

/-- Embeds the default-actions selection in `parse_args`:
`if os.isatty(0) and os.isatty(1): default_actions = actions_interactive
else: default_actions = [action_print]`. -/
def default_actions (stdin_isatty stdout_isatty : Bool) : List PyAction :=
  if stdin_isatty && stdout_isatty then actions_interactive else [action_print]

/-- The textual record appended to the error list for a failing file:
`"%s: %s: %s" % (filename, type(e).__name__, e)`.  The filename is prepended
unconditionally. -/
def errorEntry (f : PyFilename) (e : PyExc) : String :=
  strOfFilename f ++ ": " ++ e.ty ++ ": " ++ e.msg

/-- The rebound exception `if str(filename) not in str(e): e =
type(e)("While processing %s: %s" % (filename, e))`.  Only the `--debug`
re-raise uses this rebound `e`; the non-debug traceback print passes
`sys.exc_info()`, which still holds the original exception. -/
def wrap_exception (f : PyFilename) (e : PyExc) : PyExc :=
  if strContains e.msg (strOfFilename f) then e
  else ⟨e.ty, "While processing " ++ strOfFilename f ++ ": " ++ e.msg⟩

/-- The text `traceback.print_exception` emits on standard error, modelled as
the exception's header line. -/
def pyTraceback (e : PyExc) : String :=
  "Traceback (most recent call last):\n" ++ e.ty ++ ": " ++ e.msg ++ "\n"

/-- Runs the configured action sequence in order on one file's cache,
stopping at the first non-normal outcome (the `for action in actions` loop). -/
def runActions : List PyAction → Modifier → World → ActResult
  | [], m, w => .ok m w
  | a :: rest, m, w =>
    match a m w with
    | .ok m1 w1 => runActions rest m1 w1
    | r => r

/-- Outcome of one iteration of the driver's per-file loop. -/
inductive FileStep where
  | next (w : World) (newErrors : List String)
  | exitStep (w : World) (code : Nat)
  | raisedStep (w : World) (e : PyExc)
deriving Repr

def FileStep.world : FileStep → World
  | .next w _ => w
  | .exitStep w _ => w
  | .raisedStep w _ => w

/-- Embeds the body of the `for filename in filenames` loop of
`process_actions`: build a fresh `Modifier`, run the actions; `AbortActions`
just moves on; an ordinary `Exception` is recorded (filename prepended), and
the *original* exception's traceback is printed to standard error —
`traceback.print_exception(*sys.exc_info())` sees the original exception,
since rebinding the local `e` does not change `sys.exc_info()` — unless
`DEBUG` is set, in which case the wrapped exception is re-raised; a
`SystemExit` escapes.  The cache's temp files are released when its scope
ends, on every exit path (CPython reference counting invoking
`Modifier.__del__`). -/
def processFile (actions : List PyAction) (modify_function : Transform)
    (filename : PyFilename) (w : World) : FileStep :=
  match runActions actions (Modifier.init modify_function filename) w with
  | .ok m1 w1 => .next (m1.close w1) []
  | .abort m1 w1 => .next (m1.close w1) []
  | .exit m1 w1 c => .exitStep (m1.close w1) c
  | .exc m1 w1 e =>
    let entry := errorEntry filename e
    let e2 := wrap_exception filename e
    if w1.debug then .raisedStep (m1.close w1) e2
    else .next (m1.close {w1 with stderrText := w1.stderrText ++ pyTraceback e})
               [entry]

/-- Outcome of the whole per-file loop. -/
inductive LoopOut where
  | done (w : World) (errors : List String)
  | exited (w : World) (code : Nat)
  | raisedLoop (w : World) (e : PyExc)
deriving Repr

/-- The driver's per-file loop: processes every file in order, accumulating
error records; a `SystemExit` or a `--debug` re-raise stops the run. -/
def processLoop (actions : List PyAction) (modify_function : Transform) :
    List PyFilename → World → List String → LoopOut
  | [], w, errors => .done w errors
  | f :: rest, w, errors =>
    match processFile actions modify_function f w with
    | .next w1 newErrors => processLoop actions modify_function rest w1 (errors ++ newErrors)
    | .exitStep w1 c => .exited w1 c
    | .raisedStep w1 e => .raisedLoop w1 e

/-- Worker for `splitlines`: `acc` holds the current line's characters in
reverse. -/
def splitlinesAux (acc : List Char) : List Char → List String
  | [] => if acc.isEmpty then [] else [⟨acc.reverse⟩]
  | c :: t =>
    if c = '\n' then (⟨acc.reverse⟩ : String) :: splitlinesAux [] t
    else splitlinesAux (c :: acc) t

/-- Python's `str.splitlines` restricted to newline separators, as used on the
error records: every newline terminates a line, and a trailing newline does
not produce a final empty line. -/
def splitlines (s : String) : List String :=
  splitlinesAux [] s.data

/-- One record's contribution to the final summary:
`"    " + lines[0] + '\n'.join("            %s" % line for line in lines[1:])`.
(An empty record would make the Python code raise `IndexError`; records are
never empty, so that case maps to the empty string.) -/
def formatEntry (e : String) : String :=
  match splitlines e with
  | [] => ""
  | l0 :: rest =>
    "    " ++ l0 ++ String.intercalate "\n" (rest.map (fun line => "            " ++ line))

/-- The consolidated summary `process_actions` raises via `SystemExit` when
the error list is non-empty. -/
def buildErrorMsg (argv0 : String) (errors : List String) : String :=
  errors.foldl (fun msg e => msg ++ formatEntry e)
    ("\n" ++ argv0 ++ ": encountered the following problems:\n")

/-- Modelled from the spec: `pyflyby._file.expand_py_files_from_args` (not
under src/): "`Resolve(args, onError) → sequence of sources`...  Non-matching
patterns are reported through `onError(arg)`".  `resolve` is the expansion
oracle; the second component collects the args passed to `on_error`. -/
def expand_py_files_from_args (resolve : String → List PyFilename)
    (args : List String) : List PyFilename × List String :=
  args.foldl
    (fun acc a =>
      match resolve a with
      | [] => (acc.1, acc.2 ++ [a])
      | fs => (acc.1 ++ fs, acc.2))
    ([], [])

/-- Result of `filename_args`: a resolved file list plus the bad arguments
reported through `on_error`, or the usage-and-exit path. -/
inductive ResolvedArgs where
  | files (fs : List PyFilename) (bad : List String)
  | usage
deriving DecidableEq, Repr

/-- Embeds `filename_args`: explicit args are expanded; with no args, stdin is
used when it is not a tty; otherwise the usage routine runs (the source calls
it `syntax()`, a name Lean reserves). -/
def filename_args (resolve : String → List PyFilename) (args : List String)
    (stdin_isatty : Bool) : ResolvedArgs :=
  if args.isEmpty then
    if !stdin_isatty then .files [PyFilename.stdin] []
    else .usage
  else
    match expand_py_files_from_args resolve args with
    | (fs, bad) => .files fs bad

/-- The usage text the `syntax()` routine prints to standard error before
`SystemExit(1)` (the main script's docstring is modelled as empty). -/
def usageText (argv0 : String) : String :=
  "\n\nFor usage, see: " ++ argv0 ++ " --help\n"

/-- How a whole `process_actions` run ends: normal return (the caller then
exits 0), the consolidated-summary `SystemExit(msg)`, a numeric `SystemExit`
(interrupt during a prompt), the usage exit, or a `--debug` re-raise. -/
inductive RunOutcome where
  | finished (w : World)
  | exitMsg (w : World) (msg : String)
  | exitCode (w : World) (code : Nat)
  | usageExit (w : World)
  | raised (w : World) (e : PyExc)
deriving Repr

/-- The process exit status each run outcome produces: Python turns
`SystemExit` with a string argument into status 1 after printing it, a
`SystemExit` with an integer argument into that integer, and an uncaught
exception into status 1. -/
def runStatus : RunOutcome → Nat
  | .finished _ => 0
  | .exitMsg _ _ => 1
  | .exitCode _ c => c
  | .usageExit _ => 1
  | .raised _ _ => 1

/-- Standard-error reporting of bad filename args
(`"%s: bad filename %s" % (sys.argv[0], arg)`). -/
def reportBadArgs (argv0 : String) (w : World) (bad : List String) : World :=
  {w with stderrText := w.stderrText ++
    String.join (bad.map (fun a => argv0 ++ ": bad filename " ++ a ++ "\n"))}

/-- Embeds `process_actions`: resolve the filenames (bad args are reported and
recorded as `"%s: bad filename" % arg`), run the per-file loop, then either
return normally (empty error list) or raise `SystemExit` with the consolidated
summary. -/
def process_actions (argv0 : String) (resolve : String → List PyFilename)
    (stdin_isatty : Bool) (args : List String) (actions : List PyAction)
    (modify_function : Transform) (w : World) : RunOutcome :=
  match filename_args resolve args stdin_isatty with
  | .usage => .usageExit {w with stderrText := w.stderrText ++ usageText argv0}
  | .files fs bad =>
    let errors0 := bad.map (fun a => a ++ ": bad filename")
    match processLoop actions modify_function fs (reportBadArgs argv0 w bad) errors0 with
    | .done w1 errs =>
      if errs.isEmpty then .finished w1
      else .exitMsg w1 (buildErrorMsg argv0 errs)
    | .exited w1 c => .exitCode w1 c
    | .raisedLoop w1 e => .raised w1 e

/-! ### Concrete fixtures used by the witness theorems -/

/-- The identity transform (a no-op `modify_function`). -/
def idT : Transform := fun ft => .ok ft.joined

/-- A small base world: files `A` and `C` exist, `B` does not; stdin holds the
empty string; no pending interactive input. -/
def w0 : World :=
  { fs := [("A", "x"), ("C", "c")], stdinText := some ""
    readCount := 0, transformCount := 0, tmpCounter := 0
    stdoutText := "", stderrText := "", queryLines := []
    interruptPending := false, extCalls := [], extStatus := 0
    writeOk := true, logLines := [], debug := false }

/-! ### Helper lemmas -/

lemma read_file_readCount (w : World) (f : PyFilename) :
    (read_file w f).2.readCount = w.readCount + 1 := by
  unfold read_file
  cases f <;> dsimp only <;> split <;> rfl

lemma read_file_transformCount (w : World) (f : PyFilename) :
    (read_file w f).2.transformCount = w.transformCount := by
  unfold read_file
  cases f <;> dsimp only <;> split <;> rfl

lemma input_content_transformCount (m : Modifier) (w : World) :
    ((m.input_content w).2.2).transformCount = w.transformCount := by
  unfold Modifier.input_content
  split
  · rfl
  · have h := read_file_transformCount w m.filename
    rcases hr : read_file w m.filename with ⟨r, w1⟩
    rw [hr] at h
    have h1 : w1.transformCount = w.transformCount := by simpa using h
    cases r <;> simp [hr, h1]

lemma read_file_val (w w2 : World) (f : PyFilename)
    (hfs : w.fs = w2.fs) (hstdin : w.stdinText = w2.stdinText) :
    (read_file w f).1 = (read_file w2 f).1 := by
  unfold read_file
  cases f with
  | file p =>
    dsimp only
    rw [hfs]
    cases h : fsLookup w2.fs p <;> simp [h]
  | stdin =>
    dsimp only
    rw [hstdin]
    cases h : w2.stdinText <;> simp [h]

lemma read_file_fs (w : World) (f : PyFilename) : (read_file w f).2.fs = w.fs := by
  unfold read_file
  cases f <;> dsimp only <;> split <;> rfl

lemma input_content_fs (m : Modifier) (w : World) :
    ((m.input_content w).2.2).fs = w.fs := by
  unfold Modifier.input_content
  split
  · rfl
  · have h := read_file_fs w m.filename
    rcases hr : read_file w m.filename with ⟨r, w1⟩
    rw [hr] at h
    have h1 : w1.fs = w.fs := by simpa using h
    cases r <;> simp [hr, h1]

lemma output_content_fs (m : Modifier) (w : World) :
    ((m.output_content w).2.2).fs = w.fs := by
  unfold Modifier.output_content
  split
  · rfl
  · have h := input_content_fs m w
    rcases hi : m.input_content w with ⟨r, m1, w1⟩
    rw [hi] at h
    have h1 : w1.fs = w.fs := by simpa using h
    cases r with
    | error e => simp [hi, h1]
    | ok ic =>
      cases hm : m1.modifier ic <;> simp [hi, hm, h1]

lemma fsLookup_cons (kv : String × String) (t : List (String × String)) (p : String) :
    fsLookup (kv :: t) p = if kv.1 = p then some kv.2 else fsLookup t p := by
  unfold fsLookup
  rw [List.find?]
  by_cases h : kv.1 = p
  · simp [h]
  · have hb : (kv.1 == p) = false := by simp [h]
    rw [hb, if_neg h]

lemma fsErase_cons (kv : String × String) (t : List (String × String)) (p : String) :
    fsErase (kv :: t) p = if kv.1 = p then fsErase t p else kv :: fsErase t p := by
  unfold fsErase
  rw [List.filter_cons]
  by_cases h : kv.1 = p <;> simp [h]

lemma fsLookup_fsErase_self (fs : List (String × String)) (p : String) :
    fsLookup (fsErase fs p) p = none := by
  induction fs with
  | nil => rfl
  | cons kv t ih =>
    rw [fsErase_cons]
    by_cases h : kv.1 = p
    · simpa [h] using ih
    · rw [if_neg h, fsLookup_cons, if_neg h]
      exact ih

lemma fsLookup_fsErase_of_none (fs : List (String × String)) (p q : String)
    (h : fsLookup fs p = none) : fsLookup (fsErase fs q) p = none := by
  induction fs with
  | nil => rfl
  | cons kv t ih =>
    rw [fsLookup_cons] at h
    by_cases hk : kv.1 = p
    · simp [hk] at h
    · rw [if_neg hk] at h
      rw [fsErase_cons]
      by_cases hq : kv.1 = q
      · rw [if_pos hq]
        exact ih h
      · rw [if_neg hq, fsLookup_cons, if_neg hk]
        exact ih h

lemma foldl_erase_none (l : List String) (w : World) (p : String)
    (h : fsLookup w.fs p = none) :
    fsLookup (l.foldl (fun w p => {w with fs := fsErase w.fs p}) w).fs p = none := by
  induction l generalizing w with
  | nil => exact h
  | cons q t ih =>
    exact ih _ (fsLookup_fsErase_of_none _ _ _ h)

lemma foldl_erase_mem (l : List String) (w : World) (p : String)
    (hp : p ∈ l) :
    fsLookup (l.foldl (fun w p => {w with fs := fsErase w.fs p}) w).fs p = none := by
  induction l generalizing w with
  | nil => cases hp
  | cons q t ih =>
    rcases List.mem_cons.mp hp with h | h
    · subst h
      exact foldl_erase_none t _ p (fsLookup_fsErase_self w.fs p)
    · exact ih _ h

lemma close_lookup_none (m : Modifier) (w : World) (p : String)
    (hp : p ∈ m.tmpfiles) : fsLookup ((m.close w)).fs p = none :=
  foldl_erase_mem m.tmpfiles w p hp

lemma leadsWith_append (pat suf : List Char) : leadsWith pat (pat ++ suf) = true := by
  induction pat with
  | nil => rfl
  | cons c t ih => simp [leadsWith, ih]

lemma listHas_self_append (pat suf : List Char) : listHas pat (pat ++ suf) = true := by
  cases pat with
  | nil => cases suf <;> simp [listHas, leadsWith]
  | cons c t =>
    have h := leadsWith_append (c :: t) suf
    simp only [List.cons_append] at h ⊢
    simp [listHas, h]

lemma listHas_sandwich (pat pre suf : List Char) :
    listHas pat (pre ++ (pat ++ suf)) = true := by
  induction pre with
  | nil => simpa using listHas_self_append pat suf
  | cons c t ih => simp [listHas, ih]

lemma strContains_sandwich (pre pat suf : String) :
    strContains (pre ++ (pat ++ suf)) pat = true := by
  rcases pre with ⟨dpre⟩
  rcases pat with ⟨dpat⟩
  rcases suf with ⟨dsuf⟩
  show listHas dpat (dpre ++ (dpat ++ dsuf)) = true
  exact listHas_sandwich dpat dpre dsuf

lemma fsLookup_fsWrite_self (fs : List (String × String)) (p s : String) :
    fsLookup (fsWrite fs p s) p = some s := by
  simp [fsWrite, fsLookup, List.find?]

lemma strContains_self_append (a b : String) : strContains (a ++ b) a = true := by
  rcases a with ⟨da⟩
  rcases b with ⟨db⟩
  show listHas da (String.data (⟨da⟩ ++ ⟨db⟩)) = true
  rw [String.data_append]
  exact listHas_self_append da db

lemma strAppend_assoc (a b c : String) : a ++ b ++ c = a ++ (b ++ c) := by
  rcases a with ⟨da⟩
  rcases b with ⟨db⟩
  rcases c with ⟨dc⟩
  apply String.ext
  simp [String.data_append]

lemma strContains_mid (a pat b : String) : strContains (a ++ pat ++ b) pat = true := by
  rcases a with ⟨da⟩
  rcases pat with ⟨dp⟩
  rcases b with ⟨db⟩
  show listHas dp (String.data ((⟨da⟩ ++ ⟨dp⟩ : String) ++ ⟨db⟩)) = true
  rw [String.data_append, String.data_append]
  rw [List.append_assoc]
  exact listHas_sandwich dp da db

lemma errorEntry_eq (f : PyFilename) (e : PyExc) :
    errorEntry f e = strOfFilename f ++ (": " ++ e.ty ++ (": " ++ e.msg)) := by
  unfold errorEntry
  rcases strOfFilename f with ⟨ds⟩
  rcases e with ⟨⟨dt⟩, ⟨dm⟩⟩
  apply String.ext
  simp [String.data_append]

lemma errorEntry_names (f : PyFilename) (e : PyExc) :
    strContains (errorEntry f e) (strOfFilename f) = true := by
  rw [errorEntry_eq]
  exact strContains_self_append _ _

/-! ### Claims -/

lemma action_ifchanged_eq (m : Modifier) (w : World) (oc : FileText)
    (m1 : Modifier) (w1 : World) (ic : FileText) (m2 : Modifier) (w2 : World)
    (ho : m.output_content w = (.ok oc, m1, w1))
    (hi : m1.input_content w1 = (.ok ic, m2, w2)) :
    action_ifchanged m w =
      if oc.joined = ic.joined then
        .abort m2 {w2 with logLines :=
          w2.logLines ++ ["unmodified: " ++ strOfFilename m2.filename]}
      else .ok m2 w2 := by
  unfold action_ifchanged
  rw [ho]
  dsimp only
  rw [hi]

/-- C1: `input_content` and `output_content` are memoized: a successful call
returns a cache whose repeated call yields the identical value and state (so
nothing is re-read and the transform is not re-applied); any single call reads
the source at most once and applies the transform at most once; a populated
cache slot is returned as is without touching the world; and for a given
transform and input source the output content is deterministic — it depends
only on the filesystem and stdin contents. -/
theorem c1_content_cache_memoized :
    (∀ (m : Modifier) (w : World) (v : FileText) (m1 : Modifier) (w1 : World),
        m.input_content w = (.ok v, m1, w1) →
        m1.input_content w1 = (.ok v, m1, w1)) ∧
    (∀ (m : Modifier) (w : World) (v : FileText) (m1 : Modifier) (w1 : World),
        m.output_content w = (.ok v, m1, w1) →
        m1.output_content w1 = (.ok v, m1, w1)) ∧
    (∀ (m : Modifier) (w : World),
        ((m.input_content w).2.2).readCount ≤ w.readCount + 1 ∧
        ((m.output_content w).2.2).transformCount ≤ w.transformCount + 1) ∧
    (∀ (m : Modifier) (w : World) (v : FileText),
        m.input_content_cache = some v → m.input_content w = (.ok v, m, w)) ∧
    (∀ (m : Modifier) (w : World) (v : FileText),
        m.output_content_cache = some v → m.output_content w = (.ok v, m, w)) ∧
    (∀ (t : Transform) (f : PyFilename) (w w2 : World),
        w.fs = w2.fs → w.stdinText = w2.stdinText →
        ((Modifier.init t f).output_content w).1 =
          ((Modifier.init t f).output_content w2).1) := by
  refine ⟨?_, ?_, ?_, ?_, ?_, ?_⟩
  · intro m w v m1 w1 h
    cases hc : m.input_content_cache with
    | some c =>
      simp only [Modifier.input_content, hc, Prod.mk.injEq, Except.ok.injEq] at h
      obtain ⟨h1, h2, h3⟩ := h
      subst h1 h2 h3
      simp [Modifier.input_content, hc]
    | none =>
      simp only [Modifier.input_content, hc] at h
      rcases hr : read_file w m.filename with ⟨r, w2⟩
      rw [hr] at h
      cases r with
      | error e => simp at h
      | ok ft =>
        simp only [Prod.mk.injEq, Except.ok.injEq] at h
        obtain ⟨h1, h2, h3⟩ := h
        subst h1 h3
        rw [← h2]
        simp [Modifier.input_content]
  · intro m w v m1 w1 h
    cases hc : m.output_content_cache with
    | some c =>
      simp only [Modifier.output_content, hc, Prod.mk.injEq, Except.ok.injEq] at h
      obtain ⟨h1, h2, h3⟩ := h
      subst h1 h2 h3
      simp [Modifier.output_content, hc]
    | none =>
      simp only [Modifier.output_content, hc] at h
      rcases hi : m.input_content w with ⟨r, m2, w2⟩
      rw [hi] at h
      cases r with
      | error e => simp at h
      | ok ic =>
        dsimp only at h
        cases hm : m2.modifier ic with
        | error e => rw [hm] at h; simp at h
        | ok s =>
          rw [hm] at h
          simp only [Prod.mk.injEq, Except.ok.injEq] at h
          obtain ⟨h1, h2, h3⟩ := h
          subst h1 h3
          rw [← h2]
          simp [Modifier.output_content]
  · intro m w
    constructor
    · unfold Modifier.input_content
      split
      · exact Nat.le_succ_of_le (Nat.le_refl _)
      · have h := read_file_readCount w m.filename
        rcases hr : read_file w m.filename with ⟨r, w1⟩
        rw [hr] at h
        have h1 : w1.readCount = w.readCount + 1 := by simpa using h
        cases r <;> simp [hr, h1]
    · unfold Modifier.output_content
      split
      · exact Nat.le_succ_of_le (Nat.le_refl _)
      · have h := input_content_transformCount m w
        rcases hi : m.input_content w with ⟨r, m1, w1⟩
        rw [hi] at h
        have h1 : w1.transformCount = w.transformCount := by simpa using h
        cases r with
        | error e => simp [hi, h1]
        | ok ic =>
          cases hm : m1.modifier ic <;> simp [hi, hm, h1]
  · intro m w v hc
    simp [Modifier.input_content, hc]
  · intro m w v hc
    simp [Modifier.output_content, hc]
  · intro t f w w2 hfs hstdin
    have hval := read_file_val w w2 f hfs hstdin
    simp only [Modifier.output_content, Modifier.init, Modifier.input_content]
    rcases hr : read_file w f with ⟨r, wa⟩
    rcases hr2 : read_file w2 f with ⟨r2, wb⟩
    rw [hr, hr2] at hval
    dsimp only at hval
    subst hval
    cases r with
    | error e => simp
    | ok ft =>
      dsimp only
      cases hm : t ft <;> simp [hm]

/-- Witness for C1: on the concrete world `w0`, the first read of file `A`
succeeds and populates the cache; all six conjuncts instantiated there. -/
theorem c1_witness :
    (Modifier.input_content
        { Modifier.init idT (.file "A") with
            input_content_cache := some ⟨"x", some (.file "A")⟩ }
        {w0 with readCount := 1}) =
      (.ok ⟨"x", some (.file "A")⟩,
        { Modifier.init idT (.file "A") with
            input_content_cache := some ⟨"x", some (.file "A")⟩ },
        {w0 with readCount := 1}) :=
  c1_content_cache_memoized.1 (Modifier.init idT (.file "A")) w0
    ⟨"x", some (.file "A")⟩
    { Modifier.init idT (.file "A") with
        input_content_cache := some ⟨"x", some (.file "A")⟩ }
    {w0 with readCount := 1} rfl

/-- C3: `action_ifchanged` aborts (after logging "unmodified") exactly when the
output content equals the input content byte-for-byte, and continues
otherwise; consequently, under the sequence `[IFCHANGED, REPLACE]` with a
transform whose output equals the input, the abort short-circuits the chain —
`action_replace` is never invoked and the filesystem is untouched. -/
theorem c3_ifchanged_abort_iff :
    (∀ (m : Modifier) (w : World) (oc : FileText) (m1 : Modifier) (w1 : World)
        (ic : FileText) (m2 : Modifier) (w2 : World),
        m.output_content w = (.ok oc, m1, w1) →
        m1.input_content w1 = (.ok ic, m2, w2) →
        (oc.joined = ic.joined →
          action_ifchanged m w = .abort m2 {w2 with logLines :=
            w2.logLines ++ ["unmodified: " ++ strOfFilename m2.filename]}) ∧
        (oc.joined ≠ ic.joined → action_ifchanged m w = .ok m2 w2)) ∧
    (∀ (m : Modifier) (w : World) (oc : FileText) (m1 : Modifier) (w1 : World)
        (ic : FileText) (m2 : Modifier) (w2 : World),
        m.output_content w = (.ok oc, m1, w1) →
        m1.input_content w1 = (.ok ic, m2, w2) →
        oc.joined = ic.joined →
        runActions [action_ifchanged, action_replace] m w =
          .abort m2 {w2 with logLines :=
            w2.logLines ++ ["unmodified: " ++ strOfFilename m2.filename]} ∧
        ({w2 with logLines :=
            w2.logLines ++ ["unmodified: " ++ strOfFilename m2.filename]}).fs = w.fs) := by
  constructor
  · intro m w oc m1 w1 ic m2 w2 ho hi
    rw [action_ifchanged_eq m w oc m1 w1 ic m2 w2 ho hi]
    constructor
    · intro heq
      rw [if_pos heq]
    · intro hne
      rw [if_neg hne]
  · intro m w oc m1 w1 ic m2 w2 ho hi heq
    have hact := action_ifchanged_eq m w oc m1 w1 ic m2 w2 ho hi
    rw [if_pos heq] at hact
    constructor
    · show (match action_ifchanged m w with
            | .ok m1 w1 => runActions [action_replace] m1 w1
            | r => r) = _
      rw [hact]
    · have h2 : w2.fs = w1.fs := by
        have := input_content_fs m1 w1
        rw [hi] at this
        simpa using this
      have h1 : w1.fs = w.fs := by
        have := output_content_fs m w
        rw [ho] at this
        simpa using this
      show w2.fs = w.fs
      rw [h2, h1]

/-- Witness for C3: the identity transform on file `A` leaves the content
unchanged, so `[IFCHANGED, REPLACE]` aborts with the file system untouched. -/
theorem c3_witness :
    runActions [action_ifchanged, action_replace] (Modifier.init idT (.file "A")) w0 =
      .abort
        { Modifier.init idT (.file "A") with
            input_content_cache := some ⟨"x", some (.file "A")⟩,
            output_content_cache := some ⟨"x", some (.file "A")⟩ }
        {w0 with readCount := 1, transformCount := 1,
                 logLines := ["unmodified: A"]} ∧
    ({w0 with readCount := 1, transformCount := 1,
              logLines := ["unmodified: A"]} : World).fs = w0.fs :=
  c3_ifchanged_abort_iff.2 (Modifier.init idT (.file "A")) w0
    ⟨"x", some (.file "A")⟩
    { Modifier.init idT (.file "A") with
        input_content_cache := some ⟨"x", some (.file "A")⟩,
        output_content_cache := some ⟨"x", some (.file "A")⟩ }
    {w0 with readCount := 1, transformCount := 1}
    ⟨"x", some (.file "A")⟩
    { Modifier.init idT (.file "A") with
        input_content_cache := some ⟨"x", some (.file "A")⟩,
        output_content_cache := some ⟨"x", some (.file "A")⟩ }
    {w0 with readCount := 1, transformCount := 1}
    rfl rfl rfl

lemma action_replace_file_eq (m : Modifier) (w : World) (p : String)
    (oc : FileText) (m1 : Modifier) (w1 : World)
    (hf : m.filename = .file p)
    (ho : m.output_content
        {w with logLines :=
          w.logLines ++ [strOfFilename m.filename ++ ": *** modified ***"]} =
      (.ok oc, m1, w1)) :
    action_replace m w =
      if w1.writeOk then .ok m1 {w1 with fs := fsWrite w1.fs p oc.joined}
      else .exc m1 w1 ⟨"IOError", "write failed"⟩ := by
  unfold action_replace atomic_write_file
  rw [if_neg (by simp [hf] : ¬(m.filename = PyFilename.stdin))]
  dsimp only
  rw [ho]
  dsimp only
  rw [hf]
  by_cases hw : w1.writeOk
  · simp [hw]
  · simp [hw]

/-- C4: `action_replace` on the stdin sentinel always raises (the
`ReplaceOnStdinError` of the spec) and leaves the world — in particular the
filesystem — completely untouched; on a real file it logs "modified" and
atomically overwrites the source with the output content: the write either
fully succeeds (the file then holds exactly the output bytes) or fails leaving
the filesystem exactly as before. -/
theorem c4_replace_stdin_and_atomic :
    (∀ (m : Modifier) (w : World), m.filename = PyFilename.stdin →
        action_replace m w = .exc m w ⟨"Exception", "Can\x27t replace stdio in-place"⟩) ∧
    (∀ (m : Modifier) (w : World) (p : String) (oc : FileText)
        (m1 : Modifier) (w1 : World),
        m.filename = .file p →
        m.output_content
            {w with logLines :=
              w.logLines ++ [strOfFilename m.filename ++ ": *** modified ***"]} =
          (.ok oc, m1, w1) →
        (w1.writeOk = true →
          action_replace m w = .ok m1 {w1 with fs := fsWrite w1.fs p oc.joined} ∧
          fsLookup (fsWrite w1.fs p oc.joined) p = some oc.joined) ∧
        (w1.writeOk = false →
          action_replace m w = .exc m1 w1 ⟨"IOError", "write failed"⟩ ∧
          w1.fs = w.fs)) := by
  constructor
  · intro m w hf
    unfold action_replace
    rw [hf, if_pos rfl]
  · intro m w p oc m1 w1 hf ho
    have heq := action_replace_file_eq m w p oc m1 w1 hf ho
    have hfs1 : w1.fs = w.fs := by
      have := output_content_fs m
        {w with logLines :=
          w.logLines ++ [strOfFilename m.filename ++ ": *** modified ***"]}
      rw [ho] at this
      simpa using this
    constructor
    · intro hw
      rw [if_pos hw] at heq
      exact ⟨heq, fsLookup_fsWrite_self _ _ _⟩
    · intro hw
      rw [if_neg (by simp [hw])] at heq
      exact ⟨heq, hfs1⟩

/-- Witness for C4: the stdin sentinel raises without writing, and replacing
file `C` with its own content succeeds, leaving `C` holding the output. -/
theorem c4_witness :
    action_replace (Modifier.init idT PyFilename.stdin) w0 =
      .exc (Modifier.init idT PyFilename.stdin) w0
        ⟨"Exception", "Can\x27t replace stdio in-place"⟩ ∧
    (action_replace (Modifier.init idT (.file "C")) w0 =
      .ok
        { Modifier.init idT (.file "C") with
            input_content_cache := some ⟨"c", some (.file "C")⟩,
            output_content_cache := some ⟨"c", some (.file "C")⟩ }
        {w0 with readCount := 1, transformCount := 1,
                 logLines := ["C: *** modified ***"],
                 fs := [("C", "c"), ("A", "x")]} ∧
      fsLookup (fsWrite ({w0 with
                           readCount := 1, transformCount := 1,
                           logLines := ["C: *** modified ***"]} : World).fs
        "C" "c") "C" = some "c") :=
  ⟨c4_replace_stdin_and_atomic.1 (Modifier.init idT PyFilename.stdin) w0 rfl,
   (c4_replace_stdin_and_atomic.2 (Modifier.init idT (.file "C")) w0 "C"
      ⟨"c", some (.file "C")⟩
      { Modifier.init idT (.file "C") with
          input_content_cache := some ⟨"c", some (.file "C")⟩,
          output_content_cache := some ⟨"c", some (.file "C")⟩ }
      {w0 with readCount := 1, transformCount := 1,
               logLines := ["C: *** modified ***"]}
      rfl rfl).1 rfl⟩

/-- C5 counterexample: at end of the input stream (no pending lines),
`action_query` does not return `Abort` as the claim states — `raw_input`
raises `EOFError`, which escapes the action as an ordinary exception (and is
then recorded as a per-file error by the driver). -/
theorem c5_counterexample :
    ActResult.isAbort (action_query "Proceed?" (Modifier.init idT (.file "A")) w0)
      = false ∧
    ActResult.isExc (action_query "Proceed?" (Modifier.init idT (.file "A")) w0)
      = true :=
  ⟨rfl, rfl⟩

/-- C5 (amended): when a line is available, `action_query` returns `Continue`
exactly when the line, stripped and lowercased, starts with "y", and `Abort`
(printing "Aborted") otherwise; at end of the input stream it raises
`EOFError` (a per-file failure once it reaches the driver) rather than
aborting; a `KeyboardInterrupt` during the wait is converted into
`SystemExit(1)`, terminating the entire process rather than only this file's
pipeline. -/
theorem c5_query_amended :
    (∀ (prompt : String) (m : Modifier) (w : World) (line : String)
        (rest : List String),
        w.interruptPending = false → w.queryLines = line :: rest →
        (startsWithY (pyLower (pyStrip line)) = true →
          action_query prompt m w =
            .ok m {w with
                    stdoutText := w.stdoutText ++ "\n" ++
                      pyFormat (strOfFilename m.filename) prompt ++ " [y/N] ",
                    queryLines := rest}) ∧
        (startsWithY (pyLower (pyStrip line)) = false →
          action_query prompt m w =
            .abort m {w with
                       stdoutText := w.stdoutText ++ "\n" ++
                         pyFormat (strOfFilename m.filename) prompt ++
                         " [y/N] " ++ "Aborted\n",
                       queryLines := rest})) ∧
    (∀ (prompt : String) (m : Modifier) (w : World),
        w.interruptPending = false → w.queryLines = [] →
        action_query prompt m w =
          .exc m {w with stdoutText := w.stdoutText ++ "\n" ++
                    pyFormat (strOfFilename m.filename) prompt ++ " [y/N] "}
            ⟨"EOFError", "EOF when reading a line"⟩) ∧
    (∀ (prompt : String) (m : Modifier) (w : World),
        w.interruptPending = true →
        action_query prompt m w =
          .exit m {w with
                    stdoutText := w.stdoutText ++ "\n" ++
                      pyFormat (strOfFilename m.filename) prompt ++ " [y/N] ",
                    stderrText := w.stderrText ++ "KeyboardInterrupt\n"}
            1) := by
  refine ⟨?_, ?_, ?_⟩
  · intro prompt m w line rest hint hq
    constructor
    · intro hy
      unfold action_query
      dsimp only
      rw [hint]
      simp only [Bool.false_eq_true, if_false]
      rw [hq]
      dsimp only
      rw [hy]
      simp
    · intro hy
      unfold action_query
      dsimp only
      rw [hint]
      simp only [Bool.false_eq_true, if_false]
      rw [hq]
      dsimp only
      rw [hy]
      simp
  · intro prompt m w hint hq
    unfold action_query
    dsimp only
    rw [hint]
    simp only [Bool.false_eq_true, if_false]
    rw [hq]
  · intro prompt m w hint
    unfold action_query
    dsimp only
    rw [hint]
    simp

/-- Witness for C5 (amended): an affirmative reply "Y" continues; an injected
interrupt during the prompt becomes `SystemExit(1)`. -/
theorem c5_witness :
    action_query "Proceed?" (Modifier.init idT (.file "A"))
        {w0 with queryLines := ["Y"]} =
      .ok (Modifier.init idT (.file "A"))
        {w0 with stdoutText := "\nProceed? [y/N] ", queryLines := []} ∧
    action_query "Proceed?" (Modifier.init idT (.file "A"))
        {w0 with interruptPending := true} =
      .exit (Modifier.init idT (.file "A"))
        {w0 with stdoutText := "\nProceed? [y/N] ",
                 stderrText := "KeyboardInterrupt\n", interruptPending := true}
        1 :=
  ⟨(c5_query_amended.1 "Proceed?" (Modifier.init idT (.file "A"))
      {w0 with queryLines := ["Y"]} "Y" [] rfl rfl).1 rfl,
   c5_query_amended.2.2 "Proceed?" (Modifier.init idT (.file "A"))
      {w0 with interruptPending := true} rfl⟩

/-- C2: multi-file isolation in the driver loop.  Given files `[A, B, C]`
where `A` runs cleanly, the action sequence on `B` raises an ordinary
exception, and `C` (run from the post-`B` state) runs cleanly, the loop still
processes `C` — the final world is exactly the world `C`'s processing
produced — and the final ErrorLog is exactly one record, which names `B`. -/
theorem c2_error_isolation
    (acts : List PyAction) (mf : Transform) (A B C : PyFilename)
    (wStart wA : World) (mB : Modifier) (wB : World) (e : PyExc) (wC : World)
    (hA : processFile acts mf A wStart = .next wA [])
    (hB : runActions acts (Modifier.init mf B) wA = .exc mB wB e)
    (hdbg : wB.debug = false)
    (hC : processFile acts mf C
        (Modifier.close mB {wB with stderrText :=
          wB.stderrText ++ pyTraceback e}) = .next wC []) :
    processLoop acts mf [A, B, C] wStart [] = .done wC [errorEntry B e] ∧
    strContains (errorEntry B e) (strOfFilename B) = true := by
  refine ⟨?_, errorEntry_names B e⟩
  have s2 : processFile acts mf B wA =
      .next (Modifier.close mB
          {wB with stderrText := wB.stderrText ++ pyTraceback e})
        [errorEntry B e] := by
    unfold processFile
    rw [hB]
    dsimp only
    rw [hdbg]
    simp
  simp only [processLoop, hA, s2, hC, List.nil_append, List.append_nil]

/-- Witness for C2: with the `PRINT` action and the identity transform, files
`A` and `C` exist while `B` does not; the run prints `A` and `C` and records
exactly one error, naming `B`. -/
theorem c2_witness :
    processLoop [action_print] idT [.file "A", .file "B", .file "C"] w0 [] =
      .done
        {w0 with readCount := 3, transformCount := 2, stdoutText := "xc",
                 stderrText := "Traceback (most recent call last):\nIOError: cannot read B\n"}
        ["B: IOError: cannot read B"] ∧
    strContains "B: IOError: cannot read B" "B" = true :=
  c2_error_isolation [action_print] idT (.file "A") (.file "B") (.file "C")
    w0
    {w0 with readCount := 1, transformCount := 1, stdoutText := "x"}
    (Modifier.init idT (.file "B"))
    {w0 with readCount := 2, transformCount := 1, stdoutText := "x"}
    ⟨"IOError", "cannot read B"⟩
    {w0 with readCount := 3, transformCount := 2, stdoutText := "xc",
             stderrText := "Traceback (most recent call last):\nIOError: cannot read B\n"}
    rfl rfl rfl rfl

/-- C6 counterexample: when the underlying error message already mentions the
filename, the record appended to the ErrorLog carries the filename twice, not
exactly once — the driver prepends `"%s: %s: %s" % (filename, type, e)`
unconditionally, before the `str(filename) not in str(e)` check (which only
affects the exception used for the traceback). -/
theorem c6_counterexample :
    countOccur (errorEntry (.file "B") ⟨"IOError", "cannot read B"⟩) "B" = 2 :=
  rfl

/-- C6 (amended): the ErrorLog record always carries the filename — it is the
record's prefix — but it is prepended unconditionally, so when the underlying
message already mentions the filename the record carries it more than once.
The exactly-once wrapping applies only to the exception the `--debug` mode
re-raises: its text always contains the filename (it is wrapped with "While
processing ..." only when not already present).  In the normal (non-debug)
path the record appended to the ErrorLog is that unconditional-prefix record,
and the traceback printed to standard error is the *original* exception's —
`traceback.print_exception(*sys.exc_info())` is unaffected by the rebinding
of `e`. -/
theorem c6_error_record_amended :
    (∀ (f : PyFilename) (e : PyExc),
      (∃ rest, errorEntry f e = strOfFilename f ++ rest) ∧
      strContains (errorEntry f e) (strOfFilename f) = true ∧
      strContains (wrap_exception f e).msg (strOfFilename f) = true) ∧
    (∀ (acts : List PyAction) (mf : Transform) (f : PyFilename) (w : World)
        (m1 : Modifier) (w1 : World) (e : PyExc),
        runActions acts (Modifier.init mf f) w = .exc m1 w1 e →
        (w1.debug = true →
          processFile acts mf f w = .raisedStep (m1.close w1) (wrap_exception f e)) ∧
        (w1.debug = false →
          processFile acts mf f w =
            .next (m1.close {w1 with stderrText := w1.stderrText ++ pyTraceback e})
              [errorEntry f e])) := by
  constructor
  · intro f e
    refine ⟨⟨": " ++ e.ty ++ (": " ++ e.msg), errorEntry_eq f e⟩,
            errorEntry_names f e, ?_⟩
    unfold wrap_exception
    by_cases hc : strContains e.msg (strOfFilename f) = true
    · rw [if_pos hc]
      exact hc
    · rw [if_neg hc]
      show strContains ("While processing " ++ strOfFilename f ++ ": " ++ e.msg)
        (strOfFilename f) = true
      rw [strAppend_assoc ("While processing " ++ strOfFilename f) ": " e.msg]
      exact strContains_mid "While processing " (strOfFilename f) (": " ++ e.msg)
  · intro acts mf f w m1 w1 e h
    constructor
    · intro hd
      unfold processFile
      rw [h]
      dsimp only
      rw [hd]
      simp
    · intro hd
      unfold processFile
      rw [h]
      dsimp only
      rw [hd]
      simp

/-- Witness for C6 (amended): an unreadable file `B` under `PRINT`.  In
normal mode the driver appends the unconditional-prefix record and prints the
original exception's traceback; in debug mode it re-raises the exception —
here unwrapped, since its message already names `B`. -/
theorem c6_witness :
    processFile [action_print] idT (.file "B") w0 =
      .next
        {w0 with readCount := 1,
                 stderrText := "Traceback (most recent call last):\nIOError: cannot read B\n"}
        ["B: IOError: cannot read B"] ∧
    processFile [action_print] idT (.file "B") {w0 with debug := true} =
      .raisedStep {w0 with debug := true, readCount := 1}
        ⟨"IOError", "cannot read B"⟩ :=
  ⟨(c6_error_record_amended.2 [action_print] idT (.file "B") w0
      (Modifier.init idT (.file "B")) {w0 with readCount := 1}
      ⟨"IOError", "cannot read B"⟩ rfl).2 rfl,
   (c6_error_record_amended.2 [action_print] idT (.file "B") {w0 with debug := true}
      (Modifier.init idT (.file "B")) {w0 with debug := true, readCount := 1}
      ⟨"IOError", "cannot read B"⟩ rfl).1 rfl⟩

/-- C7: releasing a content cache deletes every temp file it created: after
`close` (the embedding of `__del__`, invoked when the instance's scope ends),
no path registered in the instance's `tmpfiles` remains on disk; and the
driver's per-file step closes the cache on every exit path — normal
completion, abort, error, and `SystemExit` — so after any per-file step no
temp file of the cache the actions produced remains on disk. -/
theorem c7_temp_cleanup :
    (∀ (m : Modifier) (w : World) (p : String),
        p ∈ m.tmpfiles → fsLookup ((m.close w)).fs p = none) ∧
    (∀ (acts : List PyAction) (mf : Transform) (f : PyFilename) (w : World)
        (p : String),
        p ∈ (ActResult.mod (runActions acts (Modifier.init mf f) w)).tmpfiles →
        fsLookup ((processFile acts mf f w).world).fs p = none) := by
  constructor
  · exact close_lookup_none
  · intro acts mf f w p hp
    cases h : runActions acts (Modifier.init mf f) w with
    | ok m1 w1 =>
      rw [h] at hp
      unfold processFile
      rw [h]
      exact close_lookup_none _ _ _ hp
    | abort m1 w1 =>
      rw [h] at hp
      unfold processFile
      rw [h]
      exact close_lookup_none _ _ _ hp
    | exit m1 w1 c =>
      rw [h] at hp
      unfold processFile
      rw [h]
      exact close_lookup_none _ _ _ hp
    | exc m1 w1 e =>
      rw [h] at hp
      unfold processFile
      rw [h]
      dsimp only
      split
      · exact close_lookup_none _ _ _ hp
      · exact close_lookup_none _ _ _ hp

/-- Witness for C7: closing a cache owning `/tmp/tmp0` removes it from the
filesystem; and a `DIFF` run on stdin, which materializes both temp files,
leaves none of them on disk after the per-file step. -/
theorem c7_witness :
    fsLookup ((Modifier.close
        {Modifier.init idT PyFilename.stdin with tmpfiles := ["/tmp/tmp0"]}
        {w0 with fs := [("/tmp/tmp0", "x")]})).fs "/tmp/tmp0" = none ∧
    fsLookup ((processFile [action_diff] idT PyFilename.stdin w0).world).fs
      "/tmp/tmp0" = none :=
  ⟨c7_temp_cleanup.1
      {Modifier.init idT PyFilename.stdin with tmpfiles := ["/tmp/tmp0"]}
      {w0 with fs := [("/tmp/tmp0", "x")]} "/tmp/tmp0"
      (List.mem_singleton.mpr rfl),
   c7_temp_cleanup.2 [action_diff] idT PyFilename.stdin w0 "/tmp/tmp0"
      (by decide)⟩

/-- C9: `action_external_command cmd` invokes the external command with
`input_content_filename` and `output_content_filename` as the two positional
arguments, logs the command and its exit status, and — whatever exit status
the subprocess oracle returns (the statement is universal in the world, hence
in `extStatus`) — returns normally, i.e. the pipeline continues; the exit
status by itself never produces an abort or a failure. -/
theorem c9_external_command_continues
    (command : String) (m : Modifier) (w : World)
    (ifn : PyFilename) (m1 : Modifier) (w1 : World)
    (ofn : PyFilename) (m2 : Modifier) (w2 : World)
    (h1 : m.input_content_filename w = (.ok ifn, m1, w1))
    (h2 : m1.output_content_filename w1 = (.ok ofn, m2, w2)) :
    action_external_command command m w =
      .ok m2 {w2 with
               extCalls := w2.extCalls ++
                 [command ++ " " ++ strOfFilename ifn ++ " " ++ strOfFilename ofn],
               logLines := w2.logLines ++
                 ["Executing external command: " ++
                    (command ++ " " ++ strOfFilename ifn ++ " " ++ strOfFilename ofn),
                  "External command returned " ++ toString w2.extStatus]} := by
  unfold action_external_command
  rw [h1]
  dsimp only
  rw [h2]

/-- Witness for C9: running `pyflyby-diff` on file `A` passes the source path
and the materialized output temp path, records the invocation, and returns
normally (status oracle 0). -/
theorem c9_witness :
    action_external_command "pyflyby-diff" (Modifier.init idT (.file "A")) w0 =
      .ok
        { Modifier.init idT (.file "A") with
            input_content_cache := some ⟨"x", some (.file "A")⟩,
            output_content_cache := some ⟨"x", some (.file "A")⟩,
            input_content_filename_cache := some (.file "A"),
            output_content_filename_cache := some (.file "/tmp/tmp0"),
            tmpfiles := ["/tmp/tmp0"] }
        {w0 with readCount := 1, transformCount := 1, tmpCounter := 1,
                 fs := [("/tmp/tmp0", "x"), ("A", "x"), ("C", "c")],
                 extCalls := ["pyflyby-diff A /tmp/tmp0"],
                 logLines := ["Executing external command: pyflyby-diff A /tmp/tmp0",
                              "External command returned 0"]} :=
  c9_external_command_continues "pyflyby-diff" (Modifier.init idT (.file "A")) w0
    (.file "A")
    { Modifier.init idT (.file "A") with
        input_content_filename_cache := some (.file "A") }
    w0
    (.file "/tmp/tmp0")
    { Modifier.init idT (.file "A") with
        input_content_cache := some ⟨"x", some (.file "A")⟩,
        output_content_cache := some ⟨"x", some (.file "A")⟩,
        input_content_filename_cache := some (.file "A"),
        output_content_filename_cache := some (.file "/tmp/tmp0"),
        tmpfiles := ["/tmp/tmp0"] }
    {w0 with readCount := 1, transformCount := 1, tmpCounter := 1,
             fs := [("/tmp/tmp0", "x"), ("A", "x"), ("C", "c")]}
    rfl rfl

/-- C10: the default action sequence from `parse_args` is `[PRINT]` whenever
standard input and standard output are not both ttys — including the two
mixed cases where exactly one of them is a tty — and is the interactive chain
`[IFCHANGED, DIFF, QUERY, REPLACE]` exactly when both are ttys. -/
theorem c10_default_actions :
    ∀ (stdin_isatty stdout_isatty : Bool),
      (¬(stdin_isatty = true ∧ stdout_isatty = true) →
        default_actions stdin_isatty stdout_isatty = [action_print]) ∧
      ((stdin_isatty = true ∧ stdout_isatty = true) →
        default_actions stdin_isatty stdout_isatty = actions_interactive) := by
  intro a b
  constructor
  · intro h
    have hab : (a && b) = false := by
      cases a <;> cases b <;> simp_all
    unfold default_actions
    rw [hab]
    rfl
  · rintro ⟨ha, hb⟩
    subst ha hb
    rfl

/-- Witness for C10: all four tty combinations. -/
theorem c10_witness :
    default_actions true false = [action_print] ∧
    default_actions false true = [action_print] ∧
    default_actions false false = [action_print] ∧
    default_actions true true = actions_interactive :=
  ⟨(c10_default_actions true false).1 (by simp),
   (c10_default_actions false true).1 (by simp),
   (c10_default_actions false false).1 (by simp),
   (c10_default_actions true true).2 ⟨rfl, rfl⟩⟩

/-- C8 counterexample: the consolidated summary is not "one line per failed
file": the builder appends `"    " + lines[0]` with no following newline, so
two single-line records land on the same line of the message (three lines in
total, the last carrying both records), and an entry's detail lines are glued
to it without a separating newline. -/
theorem c8_counterexample :
    buildErrorMsg "prog" ["a: X", "b: Y"] =
      "\nprog: encountered the following problems:\n    a: X    b: Y" ∧
    splitlines (buildErrorMsg "prog" ["a: X", "b: Y"]) =
      ["", "prog: encountered the following problems:", "    a: X    b: Y"] :=
  ⟨rfl, rfl⟩

/-- C8 (amended): the driver's run outcome and exit status.  With no
filenames and a tty stdin it prints the usage text and exits 1.  Otherwise,
after the per-file loop: an empty ErrorLog means a normal return (exit status
0); a non-empty ErrorLog raises `SystemExit` with the single consolidated
message built by `buildErrorMsg` (whose per-file records are concatenated
without separating newlines, not one line per file), producing exit status 1;
a `SystemExit` escaping an action — the interrupt-during-prompt path, which
`action_query` raises with code 1 — terminates the run with that code, so the
interrupt exit status is 1, the same status as the consolidated-error exit,
not a distinct one. -/
theorem c8_exit_behavior_amended :
    (∀ (argv0 : String) (resolve : String → List PyFilename)
        (acts : List PyAction) (mf : Transform) (w : World),
        process_actions argv0 resolve true [] acts mf w =
          .usageExit {w with stderrText := w.stderrText ++ usageText argv0} ∧
        runStatus (process_actions argv0 resolve true [] acts mf w) = 1) ∧
    (∀ (argv0 : String) (resolve : String → List PyFilename) (tty : Bool)
        (args : List String) (acts : List PyAction) (mf : Transform) (w : World)
        (fs : List PyFilename) (bad : List String) (w1 : World)
        (errs : List String),
        filename_args resolve args tty = .files fs bad →
        processLoop acts mf fs (reportBadArgs argv0 w bad)
            (bad.map (fun a => a ++ ": bad filename")) = .done w1 errs →
        (errs = [] →
          process_actions argv0 resolve tty args acts mf w = .finished w1 ∧
          runStatus (process_actions argv0 resolve tty args acts mf w) = 0) ∧
        (errs ≠ [] →
          process_actions argv0 resolve tty args acts mf w =
            .exitMsg w1 (buildErrorMsg argv0 errs) ∧
          runStatus (process_actions argv0 resolve tty args acts mf w) = 1)) ∧
    (∀ (argv0 : String) (resolve : String → List PyFilename) (tty : Bool)
        (args : List String) (acts : List PyAction) (mf : Transform) (w : World)
        (fs : List PyFilename) (bad : List String) (w1 : World) (c : Nat),
        filename_args resolve args tty = .files fs bad →
        processLoop acts mf fs (reportBadArgs argv0 w bad)
            (bad.map (fun a => a ++ ": bad filename")) = .exited w1 c →
        process_actions argv0 resolve tty args acts mf w = .exitCode w1 c ∧
        runStatus (process_actions argv0 resolve tty args acts mf w) = c) ∧
    (∀ (prompt : String) (m : Modifier) (w : World), w.interruptPending = true →
        action_query prompt m w =
          .exit m {w with
                    stdoutText := w.stdoutText ++ "\n" ++
                      pyFormat (strOfFilename m.filename) prompt ++ " [y/N] ",
                    stderrText := w.stderrText ++ "KeyboardInterrupt\n"}
            1) ∧
    (∀ (w1 : World) (s : String), runStatus (.exitCode w1 1) = runStatus (.exitMsg w1 s)) := by
  refine ⟨?_, ?_, ?_, ?_, ?_⟩
  · intro argv0 resolve acts mf w
    constructor
    · rfl
    · rfl
  · intro argv0 resolve tty args acts mf w fs bad w1 errs hfa hloop
    constructor
    · intro hnil
      subst hnil
      unfold process_actions
      rw [hfa]
      dsimp only
      rw [hloop]
      exact ⟨rfl, rfl⟩
    · intro hne
      have hnotempty : errs.isEmpty = false := by
        cases errs with
        | nil => exact absurd rfl hne
        | cons a t => rfl
      unfold process_actions
      rw [hfa]
      dsimp only
      rw [hloop]
      dsimp only
      rw [hnotempty]
      exact ⟨rfl, rfl⟩
  · intro argv0 resolve tty args acts mf w fs bad w1 c hfa hloop
    unfold process_actions
    rw [hfa]
    dsimp only
    rw [hloop]
    exact ⟨rfl, rfl⟩
  · intro prompt m w hint
    unfold action_query
    dsimp only
    rw [hint]
    simp
  · intro w1 s
    rfl

/-- Witness for C8 (amended): the four exit paths on concrete runs — usage
exit with status 1, clean run with status 0, per-file error with the
consolidated `SystemExit` message and status 1, and an interrupt during the
prompt with status 1. -/
theorem c8_witness :
    (process_actions "prog" (fun a => [PyFilename.file a]) true [] [action_print] idT w0 =
        .usageExit {w0 with stderrText := "\n\nFor usage, see: prog --help\n"} ∧
      runStatus (process_actions "prog" (fun a => [PyFilename.file a]) true []
        [action_print] idT w0) = 1) ∧
    (process_actions "prog" (fun a => [PyFilename.file a]) true ["A"]
        [action_print] idT w0 =
        .finished {w0 with readCount := 1, transformCount := 1, stdoutText := "x"} ∧
      runStatus (process_actions "prog" (fun a => [PyFilename.file a]) true ["A"]
        [action_print] idT w0) = 0) ∧
    (process_actions "prog" (fun a => [PyFilename.file a]) true ["B"]
        [action_print] idT w0 =
        .exitMsg
          {w0 with readCount := 1,
                   stderrText := "Traceback (most recent call last):\nIOError: cannot read B\n"}
          "\nprog: encountered the following problems:\n    B: IOError: cannot read B" ∧
      runStatus (process_actions "prog" (fun a => [PyFilename.file a]) true ["B"]
        [action_print] idT w0) = 1) ∧
    (process_actions "prog" (fun a => [PyFilename.file a]) true ["A"]
        [action_query "Proceed?"] idT {w0 with interruptPending := true} =
        .exitCode
          {w0 with interruptPending := true, stdoutText := "\nProceed? [y/N] ",
                   stderrText := "KeyboardInterrupt\n"}
          1 ∧
      runStatus (process_actions "prog" (fun a => [PyFilename.file a]) true ["A"]
        [action_query "Proceed?"] idT {w0 with interruptPending := true}) = 1) :=
  ⟨c8_exit_behavior_amended.1 "prog" (fun a => [PyFilename.file a])
     [action_print] idT w0,
   (c8_exit_behavior_amended.2.1 "prog" (fun a => [PyFilename.file a]) true ["A"]
     [action_print] idT w0 [.file "A"] []
     {w0 with readCount := 1, transformCount := 1, stdoutText := "x"} []
     rfl rfl).1 rfl,
   (c8_exit_behavior_amended.2.1 "prog" (fun a => [PyFilename.file a]) true ["B"]
     [action_print] idT w0 [.file "B"] []
     {w0 with readCount := 1,
              stderrText := "Traceback (most recent call last):\nIOError: cannot read B\n"}
     ["B: IOError: cannot read B"]
     rfl rfl).2 (by simp),
   c8_exit_behavior_amended.2.2.1 "prog" (fun a => [PyFilename.file a]) true ["A"]
     [action_query "Proceed?"] idT {w0 with interruptPending := true} [.file "A"] []
     {w0 with interruptPending := true, stdoutText := "\nProceed? [y/N] ",
              stderrText := "KeyboardInterrupt\n"}
     1 rfl rfl⟩

end Pyflyby
